import Mathlib

/-!
# Verification of the Seoul real-estate query-and-normalize pipeline

A shallow embedding of `src/api.py`: the record fetcher (`query_real_estate`),
the tabular converter (`convert_data`), the derived aggregates of `main`
(summary KPIs, monthly mean unit price, top-5 by amount), and the
address-construction rule for geocoding.

Modelling conventions:
* An XML `row` element at full fidelity is an `XmlRow`: each field
  distinguishes an absent child element, a present-but-empty one (whose
  ElementTree `.text` is Python `None`), and a present one with text.
  `RawRow` is its string-collapsed view — a present-but-empty element read
  as text `""` — used by the statements for which the distinction is
  immaterial; the filter's failure behaviour, where it is material, is
  stated over `XmlRow`.
* pandas missing values (`NaN` / `NaT`) are modelled as `none` of an `Option`.
* Machine floats are modelled as exact rationals `ℚ`; the feed's amounts and
  areas are short decimal literals, where float and rational arithmetic agree.
* Effects are explicit: the HTTP/XML outcome of the fetch is a parameter, and
  "the Python code raises an uncaught exception" is `Except.error`.
-/

namespace SeoulApi

/-- One `<row>` element of the provider's XML, string-collapsed: each field
is the text of the corresponding child element (`RCPT_YR`, `CGG_NM`,
`STDG_NM`, `MNO`, `SNO`, `BLDG_NM`, `CTRT_DAY`, `THING_AMT`, `ARCH_AREA`),
`none` when the child is absent.  A present-but-empty element — whose
ElementTree `.text` is Python `None` — is collapsed to `some ""` here; the
full-fidelity `XmlRow` below keeps the distinction, which changes only the
filter's failure behaviour. -/
structure RawRow where
  rcptYr : Option String
  cggNm : Option String
  stdgNm : Option String
  mno : Option String
  sno : Option String
  bldgNm : Option String
  ctrtDay : Option String
  thingAmt : Option String
  archArea : Option String
deriving DecidableEq, Repr

/-- The dict built for each retained row in `query_real_estate`
(lines 50-60 of `api.py`): every field a string, absent elements mapped
to `""`. -/
structure FilteredRow where
  rcptYr : String
  cggNm : String
  stdgNm : String
  mno : String
  sno : String
  bldgNm : String
  ctrtDay : String
  thingAmt : String
  archArea : String
deriving DecidableEq, Repr

/-- Models `row.find(tag).text if row.find(tag) is not None else ""`. -/
def getText (f : Option String) : String := f.getD ""

/-- Python's substring test `needle in hay` on strings, as a Bool. -/
def strContains (hay needle : String) : Bool := decide (needle.data <:+: hay.data)

/-- The retention test of line 49 of `api.py`:
`district in cgg_nm and (not dong or dong in stdg_nm)`.
Python's `not dong` on a string is true exactly when `dong` is empty. -/
def keepRow (district dong cgg stdg : String) : Bool :=
  strContains cgg district && (dong == "" || strContains stdg dong)

/-- The dict of lines 50-60 of `api.py`, built from a raw row. -/
def projectRow (r : RawRow) : FilteredRow where
  rcptYr := getText r.rcptYr
  cggNm := getText r.cggNm
  stdgNm := getText r.stdgNm
  mno := getText r.mno
  sno := getText r.sno
  bldgNm := getText r.bldgNm
  ctrtDay := getText r.ctrtDay
  thingAmt := getText r.thingAmt
  archArea := getText r.archArea

/-- The filtering loop of `query_real_estate` (lines 44-63 of `api.py`):
start from an empty list and append the projected dict of every row that
passes `keepRow`. -/
def query_real_estate (district dong : String) (rows : List RawRow) :
    List FilteredRow :=
  rows.foldl
    (fun acc row =>
      if keepRow district dong (getText row.cggNm) (getText row.stdgNm) then
        acc ++ [projectRow row]
      else acc)
    []

/-- Re-running the district/sub-district filter on already-projected rows:
the same test of line 49 applied to the dict's own fields. -/
def filter_again (district dong : String) (rows : List FilteredRow) :
    List FilteredRow :=
  rows.foldl
    (fun acc r =>
      if keepRow district dong r.cggNm r.stdgNm then acc ++ [r] else acc)
    []

/- ### Loop-shape lemmas -/

theorem foldl_append_filterMap {α β : Type} (p : α → Bool) (f : α → β) :
    ∀ (rows : List α) (acc : List β),
      rows.foldl (fun acc row => if p row then acc ++ [f row] else acc) acc =
        acc ++ rows.filterMap (fun row => if p row then some (f row) else none) := by
  intro rows
  induction rows with
  | nil => intro acc; simp
  | cons r rs ih =>
      intro acc
      by_cases h : p r <;> simp [h, ih]

theorem query_real_estate_eq_filterMap (district dong : String)
    (rows : List RawRow) :
    query_real_estate district dong rows =
      rows.filterMap (fun row =>
        if keepRow district dong (getText row.cggNm) (getText row.stdgNm) then
          some (projectRow row)
        else none) := by
  simpa [query_real_estate] using
    foldl_append_filterMap
      (fun row => keepRow district dong (getText row.cggNm) (getText row.stdgNm))
      projectRow rows []

theorem filterMap_if_eq_filter {α : Type} (p : α → Bool) (l : List α) :
    l.filterMap (fun a => if p a then some a else none) = l.filter p := by
  induction l with
  | nil => rfl
  | cons x xs ih => by_cases h : p x <;> simp [h, ih]

theorem filter_again_eq_filter (district dong : String)
    (rows : List FilteredRow) :
    filter_again district dong rows =
      rows.filter (fun r => keepRow district dong r.cggNm r.stdgNm) := by
  have h := foldl_append_filterMap
      (fun r : FilteredRow => keepRow district dong r.cggNm r.stdgNm)
      id rows []
  simpa [filter_again, filterMap_if_eq_filter] using h

theorem keepRow_iff (district dong cgg stdg : String) :
    keepRow district dong cgg stdg = true ↔
      (district.data <:+: cgg.data ∧ (dong ≠ "" → dong.data <:+: stdg.data)) := by
  unfold keepRow strContains
  constructor
  · intro h
    have h1 := (Bool.and_eq_true _ _).mp h
    refine ⟨of_decide_eq_true h1.1, ?_⟩
    intro hd
    rcases (Bool.or_eq_true _ _).mp h1.2 with h2 | h2
    · exact absurd (by simpa using h2) hd
    · exact of_decide_eq_true h2
  · rintro ⟨h1, h2⟩
    refine (Bool.and_eq_true _ _).mpr ⟨decide_eq_true h1, ?_⟩
    by_cases hd : dong = ""
    · exact (Bool.or_eq_true _ _).mpr (Or.inl (by simp [hd]))
    · exact (Bool.or_eq_true _ _).mpr (Or.inr (decide_eq_true (h2 hd)))

/-- C8: the district/sub-district filter is idempotent — re-filtering the
rows already produced by `query_real_estate`, with the same district and
sub-district arguments, returns them unchanged. -/
theorem C8_filter_idempotent (district dong : String) (rows : List RawRow) :
    filter_again district dong (query_real_estate district dong rows) =
      query_real_estate district dong rows := by
  rw [filter_again_eq_filter]
  apply List.filter_eq_self.mpr
  intro r hr
  rw [query_real_estate_eq_filterMap] at hr
  rcases List.mem_filterMap.mp hr with ⟨raw, _, hsome⟩
  by_cases h : keepRow district dong (getText raw.cggNm) (getText raw.stdgNm) = true
  · rw [if_pos h] at hsome
    cases hsome
    simpa [projectRow] using h
  · rw [if_neg h] at hsome
    cases hsome

/- ### Tabular conversion (`convert_data`, lines 65-83 of `api.py`) -/

/-- A calendar date, the result of a successful `pd.to_datetime` parse. -/
structure CalDate where
  y : ℕ
  m : ℕ
  d : ℕ
deriving DecidableEq, Repr

/-- Gregorian leap-year rule, as used by `datetime` when validating `%Y%m%d`. -/
def isLeapYear (y : ℕ) : Bool :=
  y % 4 = 0 && (y % 100 ≠ 0 || y % 400 = 0)

/-- Number of days in a month of the Gregorian calendar. -/
def daysInMonth (y m : ℕ) : ℕ :=
  if m = 2 then (if isLeapYear y then 29 else 28)
  else if m = 4 ∨ m = 6 ∨ m = 9 ∨ m = 11 then 30
  else 31

/-- Value of a list of decimal digit characters. -/
def digitsToNat (cs : List Char) : ℕ :=
  cs.foldl (fun acc c => 10 * acc + (c.toNat - 48)) 0

/-- Models `pd.to_datetime(s, format=%Y%m%d, errors=coerce)` on one string:
exactly eight digits, split 4/2/2 and validated as a calendar date; anything
else (wrong shape or an invalid date such as `"20230230"`) coerces to `NaT`,
i.e. `none`.  pandas additionally bounds timestamps to the years 1677-2262;
that bound is abstracted away, as every failure there also coerces to `NaT`. -/
def parseDateYYYYMMDD (s : String) : Option CalDate :=
  let cs := s.data
  if cs.length = 8 ∧ cs.all Char.isDigit then
    let y := digitsToNat (cs.take 4)
    let m := digitsToNat ((cs.drop 4).take 2)
    let d := digitsToNat (cs.drop 6)
    if 1 ≤ m ∧ m ≤ 12 ∧ 1 ≤ d ∧ d ≤ daysInMonth y m then
      some ⟨y, m, d⟩
    else none
  else none

/-- Models `pd.to_numeric(s, errors=coerce)` on one string: an optional sign
followed by a decimal literal (digits with at most one decimal point, at
least one digit) parses to its exact rational value; anything else coerces to
`NaN`, i.e. `none`.  Exponent and infinity/nan spellings are abstracted away;
they do not occur in this feed and no claim mentions them. -/
def splitAtDot : List Char → List Char × Option (List Char)
  | [] => ([], none)
  | c :: cs =>
      if c = '.' then ([], some cs)
      else
        let p := splitAtDot cs
        (c :: p.1, p.2)

def parseNum (s : String) : Option ℚ :=
  let cs := s.data
  let neg : Bool :=
    match cs with
    | '-' :: _ => true
    | _ => false
  let body : List Char :=
    match cs with
    | '-' :: r => r
    | '+' :: r => r
    | r => r
  match splitAtDot body with
  | (ip, none) =>
      if ip ≠ [] ∧ ip.all Char.isDigit then
        let v : ℚ := (digitsToNat ip : ℚ)
        some (if neg then -v else v)
      else none
  | (ip, some fp) =>
      if (ip ≠ [] ∨ fp ≠ []) ∧ ip.all Char.isDigit ∧ fp.all Char.isDigit then
        let v : ℚ :=
          (digitsToNat ip : ℚ) + (digitsToNat fp : ℚ) / ((10 : ℚ) ^ fp.length)
        some (if neg then -v else v)
      else none

/-- The per-row unit-price computation of lines 80-82 of `api.py`:
`row[amt] / row[area] if row[area] and row[area] > 0 else None`.
A `NaN` area is truthy in Python but fails `> 0`, so it lands in the `None`
branch (first match arm); an area `some a` is truthy iff `a ≠ 0`; and a `NaN`
amount divided by a positive area is again `NaN`, modelled by the inner
match sending `none` to `none`. -/
def unit_price (amt area : Option ℚ) : Option ℚ :=
  match area with
  | none => none
  | some a =>
      if a ≠ 0 ∧ 0 < a then
        match amt with
        | none => none
        | some m => some (m / a)
      else none

/-- One row of the converted DataFrame: the six text fields kept as strings,
the three coerced fields, and the derived unit-price column. -/
structure Txn where
  rcptYr : String
  cggNm : String
  stdgNm : String
  mno : String
  sno : String
  bldgNm : String
  ctrtDay : Option CalDate
  thingAmt : Option ℚ
  archArea : Option ℚ
  unitPrice : Option ℚ
deriving DecidableEq, Repr

/-- Column-wise conversion of one row:
`계약일` through `pd.to_datetime(format=%Y%m%d, errors=coerce)`,
`물건금액(만원)` and `건물면적(㎡)` through `pd.to_numeric(errors=coerce)`,
then the derived `단가(만원/㎡)` column. -/
def convertRow (r : FilteredRow) : Txn where
  rcptYr := r.rcptYr
  cggNm := r.cggNm
  stdgNm := r.stdgNm
  mno := r.mno
  sno := r.sno
  bldgNm := r.bldgNm
  ctrtDay := parseDateYYYYMMDD r.ctrtDay
  thingAmt := parseNum r.thingAmt
  archArea := parseNum r.archArea
  unitPrice := unit_price (parseNum r.thingAmt) (parseNum r.archArea)

/-- `convert_data` (lines 65-83 of `api.py`): the DataFrame holds one
converted row per input dict.  The column-wise pandas operations act
independently on each row, so the table is the row-wise map. -/
def convert_data (results : List FilteredRow) : List Txn :=
  results.map convertRow

theorem unit_price_isSome_iff (amt area : Option ℚ) :
    (unit_price amt area).isSome = true ↔
      (amt.isSome = true ∧ ∃ a, area = some a ∧ 0 < a) := by
  cases area with
  | none => simp [unit_price]
  | some a =>
      cases amt with
      | none => simp [unit_price]
      | some m =>
          by_cases h : 0 < a
          · simp [unit_price, h, ne_of_gt h]
          · simp [unit_price, h]

/-- Concrete converted row used to instantiate universally quantified
theorems: district 강서구, dong 화곡동, contract day 2023-05-15, amount
50000, area 25. -/
def fr50 : FilteredRow where
  rcptYr := "2023"
  cggNm := "강서구"
  stdgNm := "화곡동"
  mno := "100"
  sno := "0000"
  bldgNm := "테스트"
  ctrtDay := "20230515"
  thingAmt := "50000"
  archArea := "25"

/-- C1: in every converted row the unit-price field is defined iff the
amount and area fields are both defined and the area is positive, and when
defined it equals amount divided by area; amount 50000 with area 0 gives an
absent unit price, amount 50000 with area 25 gives unit price 2000. -/
theorem C1_unit_price :
    (∀ (results : List FilteredRow) (t : Txn), t ∈ convert_data results →
      ((t.unitPrice.isSome = true ↔
          (t.thingAmt.isSome = true ∧ ∃ a, t.archArea = some a ∧ 0 < a)) ∧
        (∀ m a, t.thingAmt = some m → t.archArea = some a → 0 < a →
          t.unitPrice = some (m / a)))) ∧
    unit_price (some 50000) (some 0) = none ∧
    unit_price (some 50000) (some 25) = some 2000 := by
  refine ⟨?_, by simp [unit_price], ?_⟩
  · intro results t ht
    rcases List.mem_map.mp ht with ⟨r, _, rfl⟩
    constructor
    · simpa [convertRow] using
        unit_price_isSome_iff (parseNum r.thingAmt) (parseNum r.archArea)
    · intro m a hm ha hpos
      simp only [convertRow] at hm ha ⊢
      rw [hm, ha]
      simp [unit_price, hpos, ne_of_gt hpos]
  · simp [unit_price]
    norm_num

/-- C1 witness: the theorem applied to the one-row table `[fr50]`, whose
amount string parses to 50000 and area string to 25. -/
theorem C1_unit_price_witness :
    (convertRow fr50).unitPrice = some (50000 / 25) :=
  (C1_unit_price.1 [fr50] (convertRow fr50) (by simp [convert_data])).2
    50000 25 (by decide) (by decide) (by norm_num)

/-- C4: the tabular conversion is total and row-preserving on malformed
strings — it keeps every row, the invalid calendar date `"20230230"` parses
to an absent date, unparsable number strings parse to absent numbers, and
each converted field is exactly the coercion of the corresponding input
string. -/
theorem C4_convert_never_raises :
    (∀ results : List FilteredRow,
      (convert_data results).length = results.length) ∧
    parseDateYYYYMMDD "20230230" = none ∧
    parseDateYYYYMMDD "20230515" = some ⟨2023, 5, 15⟩ ∧
    parseNum "abc" = none ∧
    parseNum "" = none ∧
    parseNum "50000" = some 50000 ∧
    (∀ r : FilteredRow,
      (convertRow r).ctrtDay = parseDateYYYYMMDD r.ctrtDay ∧
      (convertRow r).thingAmt = parseNum r.thingAmt ∧
      (convertRow r).archArea = parseNum r.archArea) := by
  refine ⟨?_, by decide, by decide, by decide, by decide, by decide, ?_⟩
  · intro results
    simp [convert_data]
  · intro r
    exact ⟨rfl, rfl, rfl⟩

/-- C10: the conversion adds or drops no row and rewrites no text field —
output and input correspond pointwise, the six text fields are copied
unchanged, and only the contract-day, amount and area fields are retyped,
with the single derived unit-price field added. -/
theorem C10_convert_frame (results : List FilteredRow) :
    (convert_data results).length = results.length ∧
    List.Forall₂
      (fun (t : Txn) (r : FilteredRow) =>
        t.rcptYr = r.rcptYr ∧ t.cggNm = r.cggNm ∧ t.stdgNm = r.stdgNm ∧
        t.mno = r.mno ∧ t.sno = r.sno ∧ t.bldgNm = r.bldgNm ∧
        t.ctrtDay = parseDateYYYYMMDD r.ctrtDay ∧
        t.thingAmt = parseNum r.thingAmt ∧
        t.archArea = parseNum r.archArea ∧
        t.unitPrice = unit_price (parseNum r.thingAmt) (parseNum r.archArea))
      (convert_data results) results := by
  refine ⟨by simp [convert_data], ?_⟩
  induction results with
  | nil => simp [convert_data]
  | cons r rs ih =>
      exact List.Forall₂.cons
        ⟨rfl, rfl, rfl, rfl, rfl, rfl, rfl, rfl, rfl, rfl⟩ ih

/- ### Fetch control flow (`query_real_estate`, lines 33-43 of `api.py`) -/

/-- Outcome of `ET.fromstring(response.content)`: either the body is not
well-formed XML (the call raises `ParseError`) or it yields the list of
`<row>` elements found by `root.findall`. -/
inductive XmlBody where
  | malformed
  | wellFormed (rows : List RawRow)
deriving DecidableEq

/-- Outcome of `requests.get` plus `response.raise_for_status()` (lines
35-36): either one of them raises — network error or non-success status —
or the request succeeds with some body. -/
inductive HttpOutcome where
  | requestFailure
  | success (body : XmlBody)
deriving DecidableEq

/-- The whole of `query_real_estate` as run against an HTTP outcome.
Lines 34-39: a request failure is caught, reported with `st.error`, and the
function returns `[]`.  Line 41 is outside the `try` block, so a malformed
body makes `ET.fromstring` raise an uncaught `ParseError`, modelled as
`Except.error`.  Otherwise the rows are filtered as in lines 44-63. -/
def query_real_estate_run (district dong : String) (o : HttpOutcome) :
    Except String (List FilteredRow) :=
  match o with
  | .requestFailure => .ok []
  | .success .malformed => .error "xml.etree.ElementTree.ParseError"
  | .success (.wellFormed rows) => .ok (query_real_estate district dong rows)

/-- C3 counterexample: on a fetch whose XML body fails to parse, the
fetcher raises an uncaught `ParseError` instead of reporting the error and
returning the empty sequence of rows. -/
theorem C3_xml_parse_raises :
    query_real_estate_run "강서구" "" (HttpOutcome.success XmlBody.malformed) =
      Except.error "xml.etree.ElementTree.ParseError" ∧
    query_real_estate_run "강서구" "" (HttpOutcome.success XmlBody.malformed) ≠
      Except.ok [] := by
  exact ⟨rfl, by simp [query_real_estate_run]⟩

/-- C3 amended: if the HTTP request errors or returns a non-success status
the fetcher reports the error and returns the empty sequence; if the
request succeeds and the body parses, it returns the filtered rows; but if
the XML body fails to parse, the parse exception propagates uncaught. -/
theorem C3_fetch_error_handling (district dong : String) (o : HttpOutcome) :
    (o = HttpOutcome.requestFailure →
      query_real_estate_run district dong o = Except.ok []) ∧
    (∀ rows, o = HttpOutcome.success (XmlBody.wellFormed rows) →
      query_real_estate_run district dong o =
        Except.ok (query_real_estate district dong rows)) ∧
    (o = HttpOutcome.success XmlBody.malformed →
      ∃ e, query_real_estate_run district dong o = Except.error e) := by
  refine ⟨?_, ?_, ?_⟩
  · rintro rfl; rfl
  · rintro rows rfl; rfl
  · rintro rfl; exact ⟨_, rfl⟩

/-- C3 witness: the amended theorem applied to a failed request — the run
returns the empty row list. -/
theorem C3_fetch_error_handling_witness :
    query_real_estate_run "강서구" "" HttpOutcome.requestFailure =
      Except.ok [] :=
  (C3_fetch_error_handling "강서구" "" HttpOutcome.requestFailure).1 rfl

/- ### Top-5 by amount (lines 181-183 of `api.py`) -/

/-- The numeric value used to rank a transaction by amount; only applied to
rows whose amount is defined (after `dropna(subset)` on that column). -/
def amtVal (t : Txn) : ℚ := t.thingAmt.getD 0

/-- Descending-by-amount ranking relation: `a` may come before `b`. -/
def amtDescLe (a b : Txn) : Prop := amtVal b ≤ amtVal a

instance : DecidableRel amtDescLe :=
  fun a b => inferInstanceAs (Decidable (amtVal b ≤ amtVal a))

instance : IsTotal Txn amtDescLe :=
  ⟨fun a b => le_total (amtVal b) (amtVal a)⟩

instance : IsTrans Txn amtDescLe :=
  ⟨fun _ _ _ h1 h2 => le_trans h2 h1⟩

/-- Lines 181-183 of `api.py`: drop rows with an absent amount, then
`nlargest(5, amount)`, which with its default tie policy is a stable
descending sort by amount followed by taking the first five.  (Line 182's
re-coercion `pd.to_numeric` of an already numeric column is the
identity.) -/
def top5_by_amount (df : List Txn) : List Txn :=
  ((df.filter (fun t => t.thingAmt.isSome)).insertionSort amtDescLe).take 5

/-- A transaction row carrying only a tag (in the building-name field) and
an amount, as used to exercise the top-5 selection. -/
def mkAmtRow (tag : String) (amt : Option ℚ) : Txn where
  rcptYr := "2023"
  cggNm := "강서구"
  stdgNm := "화곡동"
  mno := "1"
  sno := "0"
  bldgNm := tag
  ctrtDay := none
  thingAmt := amt
  archArea := none
  unitPrice := none

/-- The amounts [100, 900, 500, 900, 300] of the spec's top-5 example, with
row tags r0..r4 recording original order. -/
def exTop5 : List Txn :=
  [mkAmtRow "r0" (some 100), mkAmtRow "r1" (some 900),
   mkAmtRow "r2" (some 500), mkAmtRow "r3" (some 900),
   mkAmtRow "r4" (some 300)]

/-- C5: the top-5 selection considers only rows with a defined amount,
returns them in descending amount order, keeps ties in original row order
(any correctly-ordered pair of the filtered input survives as a pair of the
sorted output), and on amounts [100, 900, 500, 900, 300] returns the two
900-rows first — in original relative order — then 500, 300, 100. -/
theorem C5_top5_by_amount :
    (∀ df : List Txn,
      (∀ t ∈ top5_by_amount df, t.thingAmt.isSome = true) ∧
      (top5_by_amount df).Sorted amtDescLe ∧
      (top5_by_amount df).length =
        min 5 (df.filter (fun t => t.thingAmt.isSome)).length) ∧
    (∀ (df : List Txn) (a b : Txn), amtDescLe a b →
      List.Sublist [a, b] (df.filter (fun t => t.thingAmt.isSome)) →
      List.Sublist [a, b]
        ((df.filter (fun t => t.thingAmt.isSome)).insertionSort amtDescLe)) ∧
    top5_by_amount exTop5 =
      [mkAmtRow "r1" (some 900), mkAmtRow "r3" (some 900),
       mkAmtRow "r2" (some 500), mkAmtRow "r4" (some 300),
       mkAmtRow "r0" (some 100)] := by
  refine ⟨?_, ?_, ?_⟩
  · intro df
    refine ⟨?_, ?_, ?_⟩
    · intro t ht
      have h1 := List.take_subset 5
        ((df.filter (fun t => t.thingAmt.isSome)).insertionSort amtDescLe) ht
      have h2 := (List.mem_insertionSort amtDescLe).mp h1
      simpa using (List.mem_filter.mp h2).2
    · exact List.Pairwise.sublist (List.take_sublist 5 _)
        (List.sorted_insertionSort amtDescLe _)
    · rw [top5_by_amount, List.length_take,
        (List.perm_insertionSort amtDescLe _).length_eq]
  · intro df a b hab hsub
    exact List.pair_sublist_insertionSort hab hsub
  · decide

/-- C5 witness: the stability part of the theorem applied to the two
tied 900-amount rows of the concrete example. -/
theorem C5_top5_by_amount_witness :
    List.Sublist [mkAmtRow "r1" (some 900), mkAmtRow "r3" (some 900)]
      ((exTop5.filter (fun t => t.thingAmt.isSome)).insertionSort amtDescLe) :=
  C5_top5_by_amount.2.1 exTop5 (mkAmtRow "r1" (some 900))
    (mkAmtRow "r3" (some 900)) (by decide) (by decide)

/- ### Monthly mean unit price (lines 146-149 of `api.py`) -/

/-- The `(year, month)` group key of a transaction, from its contract date
(`dt.to_period(M)` keeps exactly year and month). -/
def txnYM (t : Txn) : Option (ℕ × ℕ) :=
  t.ctrtDay.map (fun d => (d.y, d.m))

/-- Line 146: `dropna(subset=[계약일, 단가(만원/㎡)])` keeps a row iff both
the contract date and the unit price are present. -/
def validForTrend (t : Txn) : Bool :=
  t.ctrtDay.isSome && t.unitPrice.isSome

/-- First-occurrence deduplication with an accumulator of already-seen
elements; the distinct group keys of `groupby`. -/
def dedupFirst {α : Type} [DecidableEq α] : List α → List α → List α
  | [], _ => []
  | x :: xs, seen =>
      if x ∈ seen then dedupFirst xs seen else x :: dedupFirst xs (x :: seen)

/-- Ascending order on `(year, month)` keys; `groupby` emits its groups in
ascending key order. -/
def ymLe (a b : ℕ × ℕ) : Prop :=
  a.1 < b.1 ∨ (a.1 = b.1 ∧ a.2 ≤ b.2)

instance : DecidableRel ymLe :=
  fun a b => inferInstanceAs (Decidable (a.1 < b.1 ∨ (a.1 = b.1 ∧ a.2 ≤ b.2)))

/-- Arithmetic mean of a list of rationals (`Series.mean` on the grouped
values; only applied to non-empty groups). -/
def meanQ (l : List ℚ) : ℚ := l.sum / l.length

/-- Lines 146-149 of `api.py`: drop rows missing the contract date or the
unit price, group the rest by `(year, month)` of the contract date, and
take the mean unit price of each group, one output row per distinct key in
ascending key order. -/
def monthly_mean (df : List Txn) : List ((ℕ × ℕ) × ℚ) :=
  let valid := df.filter validForTrend
  let keys := (dedupFirst (valid.filterMap txnYM) []).insertionSort ymLe
  keys.map (fun k =>
    (k, meanQ ((valid.filter (fun t => txnYM t = some k)).filterMap
      (fun t => t.unitPrice))))

theorem mem_dedupFirst {α : Type} [DecidableEq α] :
    ∀ (l seen : List α) (x : α),
      x ∈ dedupFirst l seen ↔ (x ∈ l ∧ x ∉ seen) := by
  intro l
  induction l with
  | nil => intro seen x; simp [dedupFirst]
  | cons y ys ih =>
      intro seen x
      by_cases hy : y ∈ seen
      · rw [dedupFirst, if_pos hy, ih]
        constructor
        · rintro ⟨h1, h2⟩; exact ⟨List.mem_cons_of_mem y h1, h2⟩
        · rintro ⟨h1, h2⟩
          rcases List.mem_cons.mp h1 with rfl | h1
          · exact absurd hy h2
          · exact ⟨h1, h2⟩
      · rw [dedupFirst, if_neg hy]
        constructor
        · intro h
          rcases List.mem_cons.mp h with rfl | h
          · exact ⟨List.mem_cons_self x ys, hy⟩
          · rcases (ih _ x).mp h with ⟨h1, h2⟩
            refine ⟨List.mem_cons_of_mem y h1, fun hc => h2 ?_⟩
            exact List.mem_cons_of_mem y hc
        · rintro ⟨h1, h2⟩
          rcases List.mem_cons.mp h1 with rfl | h1
          · exact List.mem_cons_self x _
          · by_cases hxy : x = y
            · subst hxy; exact List.mem_cons_self x _
            · refine List.mem_cons_of_mem y ((ih _ x).mpr ⟨h1, ?_⟩)
              intro hc
              rcases List.mem_cons.mp hc with h | h
              · exact hxy h
              · exact h2 h

theorem mem_monthly_mean_iff (df : List Txn) (k : ℕ × ℕ) (v : ℚ) :
    (k, v) ∈ monthly_mean df ↔
      (k ∈ (dedupFirst ((df.filter validForTrend).filterMap txnYM)
              []).insertionSort ymLe ∧
        v = meanQ (((df.filter validForTrend).filter
            (fun t => txnYM t = some k)).filterMap (fun t => t.unitPrice))) := by
  unfold monthly_mean
  simp only [List.mem_map]
  constructor
  · rintro ⟨k', hk', heq⟩
    rw [Prod.mk.injEq] at heq
    obtain ⟨rfl, rfl⟩ := heq
    exact ⟨hk', rfl⟩
  · rintro ⟨hk, rfl⟩
    exact ⟨k, hk, rfl⟩

theorem key_mem_monthly_iff (df : List Txn) (k : ℕ × ℕ) :
    k ∈ (dedupFirst ((df.filter validForTrend).filterMap txnYM)
          []).insertionSort ymLe ↔
      ∃ t ∈ df, validForTrend t = true ∧ txnYM t = some k := by
  rw [List.mem_insertionSort, mem_dedupFirst]
  simp only [List.not_mem_nil, not_false_iff, and_true, List.mem_filterMap,
    List.mem_filter]
  constructor
  · rintro ⟨t, ⟨h1, h2⟩, h3⟩
    exact ⟨t, h1, h2, h3⟩
  · rintro ⟨t, h1, h2, h3⟩
    exact ⟨t, ⟨h1, h2⟩, h3⟩

/-- A transaction row carrying only a tag, a contract day in May 2023 and a
unit price, as used to exercise the monthly aggregation. -/
def mkTrendRow (tag : String) (day : ℕ) (up : ℚ) : Txn where
  rcptYr := "2023"
  cggNm := "강서구"
  stdgNm := "화곡동"
  mno := "1"
  sno := "0"
  bldgNm := tag
  ctrtDay := some ⟨2023, 5, day⟩
  thingAmt := none
  archArea := none
  unitPrice := some up

/-- Two rows in the same month (May 2023) with unit prices 1000 and 2000. -/
def exMonthly : List Txn :=
  [mkTrendRow "a" 10 1000, mkTrendRow "b" 20 2000]

/-- C6: the monthly aggregate has one group per `(year, month)` that is the
contract month of at least one row with both contract date and unit price
present, the value of each group is the mean unit price of exactly those
rows, and two rows in the same month with unit prices 1000 and 2000 yield
the single group of that month with mean 1500. -/
theorem C6_monthly_mean :
    (∀ (df : List Txn) (k : ℕ × ℕ),
      (∃ v, (k, v) ∈ monthly_mean df) ↔
        (∃ t ∈ df, validForTrend t = true ∧ txnYM t = some k)) ∧
    (∀ (df : List Txn) (k : ℕ × ℕ) (v : ℚ), (k, v) ∈ monthly_mean df →
      v = meanQ (((df.filter validForTrend).filter
          (fun t => txnYM t = some k)).filterMap (fun t => t.unitPrice))) ∧
    monthly_mean exMonthly = [((2023, 5), 1500)] := by
  refine ⟨?_, ?_, ?_⟩
  · intro df k
    constructor
    · rintro ⟨v, hv⟩
      exact (key_mem_monthly_iff df k).mp ((mem_monthly_mean_iff df k v).mp hv).1
    · intro h
      exact ⟨_, (mem_monthly_mean_iff df k _).mpr
        ⟨(key_mem_monthly_iff df k).mpr h, rfl⟩⟩
  · intro df k v hv
    exact ((mem_monthly_mean_iff df k v).mp hv).2
  · simp [monthly_mean, exMonthly, mkTrendRow, validForTrend, txnYM,
      dedupFirst, List.insertionSort, List.orderedInsert, meanQ]
    norm_num

/-- C6 witness: the theorem's value characterization applied to the
concrete two-row table and its single group. -/
theorem C6_monthly_mean_witness :
    (1500 : ℚ) = meanQ (((exMonthly.filter validForTrend).filter
        (fun t => txnYM t = some (2023, 5))).filterMap (fun t => t.unitPrice)) :=
  C6_monthly_mean.2.1 exMonthly (2023, 5) 1500
    (by rw [C6_monthly_mean.2.2]; exact List.mem_singleton.mpr rfl)

/- ### Geocoding address construction (lines 200-205 of `api.py`) -/

/-- Lines 202-205 of `api.py`, for a row whose main lot number passed the
`if row[본번]:` truthiness guard.  The sub-lot value is the string stored in
the dict, or Python `None` (modelled `none`) when the `SNO` element was
present but empty, so the membership test `row[부번] in ['0000', '', None]`
accepts exactly the three values `some "0000"`, `some ""` and `none`. -/
def buildAddress (cgg stdg mno : String) (sno : Option String) : String :=
  let base := "서울특별시 " ++ cgg ++ " " ++ stdg ++ " " ++ mno
  if sno = some "0000" ∨ sno = some "" ∨ sno = none then base
  else base ++ "-" ++ sno.getD ""

/-- C7: for a row with a usable (non-empty) main lot number the geocoding
address is `"서울특별시 <district> <sub-district> <main-lot>"` exactly when
the sub-lot value is `None`, the empty string or `"0000"`; for every other
sub-lot string `t` it is that base with `"-t"` appended, which always
differs from the base, so exactly those three values form the no-sub-lot
set. -/
theorem C7_address_rule (cgg stdg mno : String) (sno : Option String)
    (_hm : mno ≠ "") :
    ((sno = none ∨ sno = some "" ∨ sno = some "0000") →
      buildAddress cgg stdg mno sno =
        "서울특별시 " ++ cgg ++ " " ++ stdg ++ " " ++ mno) ∧
    (∀ t, sno = some t → t ≠ "" → t ≠ "0000" →
      buildAddress cgg stdg mno sno =
        ("서울특별시 " ++ cgg ++ " " ++ stdg ++ " " ++ mno) ++ "-" ++ t) ∧
    (∀ t, ("서울특별시 " ++ cgg ++ " " ++ stdg ++ " " ++ mno) ++ "-" ++ t ≠
      "서울특별시 " ++ cgg ++ " " ++ stdg ++ " " ++ mno) := by
  refine ⟨?_, ?_, ?_⟩
  · rintro (rfl | rfl | rfl) <;> simp [buildAddress]
  · rintro t rfl h1 h2
    simp [buildAddress, h1, h2]
  · intro t h
    have hlen := congrArg String.length h
    simp only [String.length_append] at hlen
    have hone : ("-" : String).length = 1 := rfl
    omega

/-- C7 witness: the theorem applied to main lot `"100"` and sub-lot
`"12"`, an ordinary sub-lot outside the no-sub-lot set. -/
theorem C7_address_rule_witness :
    buildAddress "강서구" "화곡동" "100" (some "12") =
      ("서울특별시 " ++ "강서구" ++ " " ++ "화곡동" ++ " " ++ "100") ++
        "-" ++ "12" :=
  (C7_address_rule "강서구" "화곡동" "100" (some "12") (by decide)).2.1 "12"
    rfl (by decide) (by decide)

/- ### Summary KPIs (lines 136-142 of `api.py`) -/

/-- `Series.mean`: absent (`NaN`) values are skipped; the mean of a series
with no present values is itself `NaN` (`none`). -/
def seriesMean (vs : List (Option ℚ)) : Option ℚ :=
  let ds := vs.filterMap id
  if ds.isEmpty then none else some (meanQ ds)

/-- Line 137 of `api.py`: the row count of the current table. -/
def kpi_total_count (df : List Txn) : ℕ := df.length

/-- Line 138 of `api.py`:
`df[물건금액(만원)].mean() if not df[물건금액(만원)].empty else 0`.
A column series is empty exactly when the table has zero rows. -/
def kpi_avg_price (df : List Txn) : Option ℚ :=
  if df.isEmpty then some 0 else seriesMean (df.map (fun t => t.thingAmt))

/-- Line 139 of `api.py`: the same computation on the unit-price column. -/
def kpi_avg_unit_price (df : List Txn) : Option ℚ :=
  if df.isEmpty then some 0 else seriesMean (df.map (fun t => t.unitPrice))

theorem isEmpty_false_of_ne_nil {α : Type} {l : List α} (h : l ≠ []) :
    l.isEmpty = false := by
  cases l with
  | nil => exact absurd rfl h
  | cons a l => rfl

theorem exists_some_of_filterMap_ne_nil {α β : Type} (f : α → Option β) :
    ∀ l : List α, l.filterMap f ≠ [] → ∃ x ∈ l, f x ≠ none := by
  intro l
  induction l with
  | nil => intro h; exact absurd rfl h
  | cons a l ih =>
      intro h
      cases hf : f a with
      | some b => exact ⟨a, List.mem_cons_self a l, by simp [hf]⟩
      | none =>
          have h2 : l.filterMap f ≠ [] := by
            simpa [List.filterMap_cons, hf] using h
          rcases ih h2 with ⟨x, hx, hfx⟩
          exact ⟨x, List.mem_cons_of_mem a hx, hfx⟩

/-- C9 counterexample: a one-row table whose amount is absent has an empty
set of amount values, yet the reported mean amount is `NaN` (absent), not
zero — the `else 0` guard of line 138 only fires for a zero-row table. -/
theorem C9_empty_value_set_mean_not_zero :
    ([mkAmtRow "c0" none].map (fun t => t.thingAmt)).filterMap id = [] ∧
    kpi_avg_price [mkAmtRow "c0" none] = none ∧
    kpi_avg_price [mkAmtRow "c0" none] ≠ some 0 := by
  refine ⟨rfl, rfl, ?_⟩
  intro h
  simp [kpi_avg_price, seriesMean, mkAmtRow] at h

/-- C9 amended: the KPIs are computed over the current table; the count is
the row count, a zero-row table reports both means as zero, and a non-empty
table reports the mean of the present values of the column — which is
absent (`NaN`), not zero, when every value of the column is absent. -/
theorem C9_kpi_means (df : List Txn) :
    kpi_total_count df = df.length ∧
    (df = [] → kpi_avg_price df = some 0 ∧ kpi_avg_unit_price df = some 0) ∧
    (df ≠ [] →
      (((df.map (fun t => t.thingAmt)).filterMap id ≠ []) →
        kpi_avg_price df =
          some (meanQ ((df.map (fun t => t.thingAmt)).filterMap id))) ∧
      (((df.map (fun t => t.thingAmt)).filterMap id = []) →
        kpi_avg_price df = none) ∧
      (((df.map (fun t => t.unitPrice)).filterMap id ≠ []) →
        kpi_avg_unit_price df =
          some (meanQ ((df.map (fun t => t.unitPrice)).filterMap id))) ∧
      (((df.map (fun t => t.unitPrice)).filterMap id = []) →
        kpi_avg_unit_price df = none)) := by
  refine ⟨rfl, ?_, ?_⟩
  · rintro rfl
    exact ⟨rfl, rfl⟩
  · intro hne
    have hd : df.isEmpty = false := isEmpty_false_of_ne_nil hne
    refine ⟨?_, ?_, ?_, ?_⟩
    · intro h
      simp [kpi_avg_price, seriesMean, hd, isEmpty_false_of_ne_nil h]
      have h' : df.filterMap (fun t => t.thingAmt) ≠ [] := by
        simpa [List.filterMap_map] using h
      exact exists_some_of_filterMap_ne_nil _ df h'
    · intro h
      simp [kpi_avg_price, seriesMean, hd, h]
    · intro h
      simp [kpi_avg_unit_price, seriesMean, hd, isEmpty_false_of_ne_nil h]
      have h' : df.filterMap (fun t => t.unitPrice) ≠ [] := by
        simpa [List.filterMap_map] using h
      exact exists_some_of_filterMap_ne_nil _ df h'
    · intro h
      simp [kpi_avg_unit_price, seriesMean, hd, h]

/-- C9 witness: the amended theorem applied to the empty table, whose mean
amount is reported as zero. -/
theorem C9_kpi_means_witness : kpi_avg_price [] = some 0 :=
  ((C9_kpi_means []).2.1 rfl).1

/- ### The filter at full XML fidelity (lines 44-63 of `api.py`) -/

/-- One `<row>` element at full fidelity: a field is `none` when the child
element is absent, `some none` when it is present but empty — ElementTree
reads its `.text` as Python `None` — and `some (some s)` when it is present
with text `s`. -/
structure XmlRow where
  rcptYr : Option (Option String)
  cggNm : Option (Option String)
  stdgNm : Option (Option String)
  mno : Option (Option String)
  sno : Option (Option String)
  bldgNm : Option (Option String)
  ctrtDay : Option (Option String)
  thingAmt : Option (Option String)
  archArea : Option (Option String)
deriving DecidableEq, Repr

/-- Models `row.find(tag).text if row.find(tag) is not None else ""` at
full fidelity: the resulting Python value is the string `""` for an absent
element, and the element's text — possibly Python `None` — otherwise. -/
def pyText (f : Option (Option String)) : Option String := f.getD (some "")

/-- The dict of lines 50-60 built from a full-fidelity row: each value is
a Python string or `None`. -/
structure PyRow where
  rcptYr : Option String
  cggNm : Option String
  stdgNm : Option String
  mno : Option String
  sno : Option String
  bldgNm : Option String
  ctrtDay : Option String
  thingAmt : Option String
  archArea : Option String
deriving DecidableEq, Repr

/-- The dict of lines 50-60 of `api.py`, built from a full-fidelity row. -/
def projectPyRow (r : XmlRow) : PyRow where
  rcptYr := pyText r.rcptYr
  cggNm := pyText r.cggNm
  stdgNm := pyText r.stdgNm
  mno := pyText r.mno
  sno := pyText r.sno
  bldgNm := pyText r.bldgNm
  ctrtDay := pyText r.ctrtDay
  thingAmt := pyText r.thingAmt
  archArea := pyText r.archArea

/-- Python's `needle in hay` where `hay` may be Python `None`: membership
in `None` raises `TypeError`. -/
def strContainsPy (hay : Option String) (needle : String) :
    Except String Bool :=
  match hay with
  | none => .error "TypeError: argument of type NoneType is not iterable"
  | some h => .ok (strContains h needle)

/-- Line 49 of `api.py` with Python's evaluation order and short-circuits:
`district in cgg_nm and (not dong or dong in stdg_nm)`.  The second
membership test runs only when the first returned true and `dong` is
non-empty; either test raises `TypeError` when its right operand is
`None`. -/
def keepRowPy (district dong : String) (cgg stdg : Option String) :
    Except String Bool :=
  match strContainsPy cgg district with
  | .error e => .error e
  | .ok c1 =>
      if c1 then
        if dong = "" then .ok true
        else strContainsPy stdg dong
      else .ok false

/-- The filtering loop of lines 44-63 at full fidelity: an uncaught
`TypeError` from the membership test aborts the whole call — the `try`
block ended at line 39. -/
def query_real_estate_xml (district dong : String) (rows : List XmlRow) :
    Except String (List PyRow) :=
  rows.foldlM
    (fun acc row => do
      let keep ← keepRowPy district dong (pyText row.cggNm) (pyText row.stdgNm)
      if keep then pure (acc ++ [projectPyRow row]) else pure acc)
    []

theorem except_bind_ok {ε α β : Type} (a : α) (f : α → Except ε β) :
    (Except.ok a >>= f : Except ε β) = f a := rfl

theorem except_bind_error {ε α β : Type} (e : ε) (f : α → Except ε β) :
    (Except.error e >>= f : Except ε β) = Except.error e := rfl

theorem except_pure {ε α : Type} (a : α) :
    (pure a : Except ε α) = Except.ok a := rfl

theorem keepRowPy_eq_ok (district dong : String) (cgg stdg : Option String)
    (h1 : cgg ≠ none)
    (h2 : strContains (cgg.getD "") district = true → dong ≠ "" →
      stdg ≠ none) :
    keepRowPy district dong cgg stdg =
      Except.ok (keepRow district dong (cgg.getD "") (stdg.getD "")) := by
  cases cgg with
  | none => exact absurd rfl h1
  | some c =>
      simp only [Option.getD_some] at h2 ⊢
      by_cases hcp : district.data <:+: c.data
      · by_cases hd : dong = ""
        · subst hd
          simp [keepRowPy, strContainsPy, keepRow, strContains, hcp]
        · have hs := h2 (by simp [strContains, hcp]) hd
          cases stdg with
          | none => exact absurd rfl hs
          | some s =>
              simp [keepRowPy, strContainsPy, keepRow, strContains, hcp, hd]
      · simp [keepRowPy, strContainsPy, keepRow, strContains, hcp]

theorem query_xml_loop (district dong : String) :
    ∀ (rows : List XmlRow) (acc : List PyRow),
      (∀ row ∈ rows,
        pyText row.cggNm ≠ none ∧
        (strContains ((pyText row.cggNm).getD "") district = true →
          dong ≠ "" → pyText row.stdgNm ≠ none)) →
      rows.foldlM
        (fun acc row => do
          let keep ← keepRowPy district dong (pyText row.cggNm)
            (pyText row.stdgNm)
          if keep then pure (acc ++ [projectPyRow row]) else pure acc)
        acc =
      Except.ok (acc ++ rows.filterMap (fun row =>
        if (district.data <:+: ((pyText row.cggNm).getD "").data ∧
            (dong ≠ "" → dong.data <:+: ((pyText row.stdgNm).getD "").data))
        then some (projectPyRow row) else none)) := by
  intro rows
  induction rows with
  | nil => intro acc _; simp [except_pure]
  | cons r rs ih =>
      intro acc h
      have hr := h r (List.mem_cons_self r rs)
      have hrs := fun row hm => h row (List.mem_cons_of_mem r hm)
      rw [List.foldlM_cons,
        keepRowPy_eq_ok district dong _ _ hr.1 hr.2, except_bind_ok]
      by_cases hk : keepRow district dong ((pyText r.cggNm).getD "")
          ((pyText r.stdgNm).getD "") = true
      · have hp := (keepRow_iff district dong _ _).mp hk
        simp only [hk, eq_self_iff_true, if_true]
        rw [pure_bind, ih _ hrs, List.filterMap_cons, if_pos hp]
        simp
      · have hp : ¬ (district.data <:+: ((pyText r.cggNm).getD "").data ∧
            (dong ≠ "" →
              dong.data <:+: ((pyText r.stdgNm).getD "").data)) :=
          fun hc => hk ((keepRow_iff district dong _ _).mpr hc)
        have hk' : keepRow district dong ((pyText r.cggNm).getD "")
            ((pyText r.stdgNm).getD "") = false := by
          simpa using hk
        simp only [hk', Bool.false_eq_true, if_false]
        rw [pure_bind, ih _ hrs, List.filterMap_cons, if_neg hp]

/-- A row whose `CGG_NM` element is present but empty, so its ElementTree
text is Python `None`. -/
def emptyCggRow : XmlRow where
  rcptYr := none
  cggNm := some none
  stdgNm := none
  mno := none
  sno := none
  bldgNm := none
  ctrtDay := none
  thingAmt := none
  archArea := none

/-- C2 counterexample: on a row whose district element is present but
empty, the filter does not treat the field as an empty string and filter
the row out — line 49's `district in None` raises an uncaught `TypeError`,
outside the `try` block, so the whole call fails instead of returning a
row set. -/
theorem C2_empty_element_raises :
    query_real_estate_xml "강서구" "" [emptyCggRow] =
      Except.error "TypeError: argument of type NoneType is not iterable" ∧
    query_real_estate_xml "강서구" "" [emptyCggRow] ≠ Except.ok [] := by
  have h1 : query_real_estate_xml "강서구" "" [emptyCggRow] =
      Except.error "TypeError: argument of type NoneType is not iterable" :=
    rfl
  refine ⟨h1, ?_⟩
  rw [h1]
  simp

/-- C2 amended: for every raw row whose consulted fields carry actual text
— the district element is not present-but-empty, and, when a non-empty
sub-district is supplied and the district test succeeds, neither is the
sub-district element — the filter retains the row iff the district field
contains the required district as a substring and, only when a non-empty
sub-district is supplied, the sub-district field contains it as a
substring, with absent elements read as empty strings; but a
present-but-empty consulted element makes the filter raise an uncaught
`TypeError` instead of failing soft, as `C2_empty_element_raises`
shows. -/
theorem C2_filter_retention_amended (district dong : String)
    (rows : List XmlRow)
    (h : ∀ row ∈ rows,
      pyText row.cggNm ≠ none ∧
      (strContains ((pyText row.cggNm).getD "") district = true →
        dong ≠ "" → pyText row.stdgNm ≠ none)) :
    query_real_estate_xml district dong rows =
      Except.ok (rows.filterMap (fun row =>
        if (district.data <:+: ((pyText row.cggNm).getD "").data ∧
            (dong ≠ "" → dong.data <:+: ((pyText row.stdgNm).getD "").data))
        then some (projectPyRow row) else none)) := by
  have := query_xml_loop district dong rows [] h
  simpa [query_real_estate_xml] using this

/-- A full-fidelity row with every element present and non-empty, matching
district 강서구. -/
def xmlRowA : XmlRow where
  rcptYr := some (some "2023")
  cggNm := some (some "강서구")
  stdgNm := some (some "화곡동")
  mno := some (some "100")
  sno := some (some "0000")
  bldgNm := some (some "테스트")
  ctrtDay := some (some "20230515")
  thingAmt := some (some "50000")
  archArea := some (some "25")

/-- C2 witness: the amended theorem applied to a one-row list whose
district field literally equals the query, with no sub-district supplied;
the row is retained and projected. -/
theorem C2_filter_retention_amended_witness :
    query_real_estate_xml "강서구" "" [xmlRowA] =
      Except.ok [projectPyRow xmlRowA] := by
  have happ := C2_filter_retention_amended "강서구" "" [xmlRowA]
    (by
      intro row hrow
      rw [List.mem_singleton] at hrow
      subst hrow
      exact ⟨by simp [pyText, xmlRowA], fun _ hd => absurd rfl hd⟩)
  rw [happ, List.filterMap_cons, if_pos
    ⟨List.infix_refl ("강서구" : String).data, fun hd => absurd rfl hd⟩,
    List.filterMap_nil]

end SeoulApi
